import Mathlib

/-!
Shallow embedding of the `ForeignSyncControl.vue` component
(src/frontend/src/components/Sync/ForeignSyncControl.vue) and of the
startup shell script (src/unnamed/part_000) of the TradingAgents-CN
frontend.

The Vue component is single-threaded and event-driven: each async
handler runs synchronously up to its single `await request.…` call
(phase 1, the `…Start` functions below), suspends, and then runs the
response handler together with the `finally` block (phase 2, the
`…Resolve` functions).  The observable UI states are exactly the states
at these suspension boundaries.  Reactive refs become fields of an
explicit `ComponentState`; `ElMessage` calls append to a `notices`
list; `console.error` appends to a `log` list.  JavaScript `undefined`
on optional fields is `Option.none`; template-literal interpolation of
a possibly-undefined value renders the string "undefined", as in JS.
-/

namespace ForeignSync

/-- Payload shape of a sync status, from the `SyncStatus` interface of
the component (all fields optional). -/
structure SyncStatus where
  job : Option String := none
  status : Option String := none
  total : Option Nat := none
  inserted : Option Nat := none
  updated : Option Nat := none
  errors : Option Nat := none
  finished_at : Option String := none
  message : Option String := none
deriving Repr, DecidableEq

/-- Kind of an `ElMessage` toast notification. -/
inductive NoticeKind where
  | info
  | success
  | error
deriving Repr, DecidableEq

/-- One user-visible toast notification. -/
structure Notice where
  kind : NoticeKind
  text : String
deriving Repr, DecidableEq

/-- The reactive state of the component: the five `ref`s, plus the
observable side-effect channels (toast notifications and the console
log). -/
structure ComponentState where
  hkStatus : Option SyncStatus
  usStatus : Option SyncStatus
  hkSyncing : Bool
  usSyncing : Bool
  allSyncing : Bool
  notices : List Notice
  log : List String
deriving Repr, DecidableEq

/-- Initial state: all status refs `null`, all flags `false`, no
side effects yet. -/
def initState : ComponentState :=
  { hkStatus := none, usStatus := none,
    hkSyncing := false, usSyncing := false, allSyncing := false,
    notices := [], log := [] }

/-- Outcome of one awaited HTTP call, as the component observes it:
either the promise rejected (a transport error carrying `err.message`),
or an envelope `\x7b success, data?, message? \x7d` arrived. -/
inductive ApiResponse (α : Type) where
  | thrown (message : String)
  | envelope (success : Bool) (data : Option α) (message : Option String)
deriving Repr, DecidableEq

/-- Payload of the trigger-all endpoint: `data.hk` and `data.us`, each
possibly absent. -/
structure AllData where
  hk : Option SyncStatus
  us : Option SyncStatus
deriving Repr, DecidableEq

/-- JS template-literal interpolation of a possibly-undefined string. -/
def jsInterp : Option String → String
  | some s => s
  | none => "undefined"

/-- JS template-literal interpolation of a possibly-undefined number. -/
def jsInterpNat : Option Nat → String
  | some n => toString n
  | none => "undefined"

/-- Message of the TypeError V8 raises when the success branch reads
`res.data.total` and `res.data` is undefined. -/
def typeErrorTotal : String :=
  "Cannot read properties of undefined (reading field total)"

/-- Message of the TypeError V8 raises when the success branch of the
all-trigger reads `res.data.hk` and `res.data` is undefined. -/
def typeErrorHK : String :=
  "Cannot read properties of undefined (reading field hk)"

/-- The source function `fetchHKStatus`: on a success envelope the HK
status ref is replaced with `res.data` wholesale; a non-success
envelope falls through silently; a thrown error is logged via
`console.error`. -/
def fetchHKStatus (s : ComponentState) (res : ApiResponse SyncStatus) :
    ComponentState :=
  match res with
  | .thrown m => { s with log := s.log ++ ["獲取港股狀態失敗: " ++ m] }
  | .envelope ok d _ => if ok then { s with hkStatus := d } else s

/-- The source function `fetchUSStatus`, symmetric to `fetchHKStatus`. -/
def fetchUSStatus (s : ComponentState) (res : ApiResponse SyncStatus) :
    ComponentState :=
  match res with
  | .thrown m => { s with log := s.log ++ ["獲取美股狀態失敗: " ++ m] }
  | .envelope ok d _ => if ok then { s with usStatus := d } else s

/-- Phase 1 of `syncHK` (before the `await`): set the in-progress flag
and emit the info toast. -/
def syncHKStart (s : ComponentState) : ComponentState :=
  { s with hkSyncing := true,
           notices := s.notices ++ [⟨.info, "開始同步港股數據..."⟩] }

/-- Phase 2 of `syncHK` (response handler plus `finally`): a success
envelope replaces `hkStatus` with `res.data` and emits a success toast
interpolating `res.data.total`; a non-success envelope emits an error
toast interpolating `res.message`; a thrown error emits an error toast
with `err.message`.  The `finally` block resets `hkSyncing` on every
path. -/
def syncHKResolve (s : ComponentState) (res : ApiResponse SyncStatus) :
    ComponentState :=
  let s1 : ComponentState :=
    match res with
    | .thrown m =>
        { s with notices := s.notices ++ [⟨.error, "港股同步失敗: " ++ m⟩] }
    | .envelope ok d m =>
        if ok then
          match d with
          | some st =>
              { s with hkStatus := some st,
                       notices := s.notices ++
                         [⟨.success,
                           "港股同步完成: " ++ jsInterpNat st.total ++ " 支"⟩] }
          | none =>
              { s with hkStatus := none,
                       notices := s.notices ++
                         [⟨.error, "港股同步失敗: " ++ typeErrorTotal⟩] }
        else
          { s with notices := s.notices ++
              [⟨.error, "港股同步失敗: " ++ jsInterp m⟩] }
  { s1 with hkSyncing := false }

/-- The whole `syncHK` handler as a function of the response. -/
def syncHK (s : ComponentState) (res : ApiResponse SyncStatus) :
    ComponentState :=
  syncHKResolve (syncHKStart s) res

/-- Phase 1 of `syncUS`. -/
def syncUSStart (s : ComponentState) : ComponentState :=
  { s with usSyncing := true,
           notices := s.notices ++ [⟨.info, "開始同步美股數據..."⟩] }

/-- Phase 2 of `syncUS`, symmetric to `syncHKResolve`. -/
def syncUSResolve (s : ComponentState) (res : ApiResponse SyncStatus) :
    ComponentState :=
  let s1 : ComponentState :=
    match res with
    | .thrown m =>
        { s with notices := s.notices ++ [⟨.error, "美股同步失敗: " ++ m⟩] }
    | .envelope ok d m =>
        if ok then
          match d with
          | some st =>
              { s with usStatus := some st,
                       notices := s.notices ++
                         [⟨.success,
                           "美股同步完成: " ++ jsInterpNat st.total ++ " 支"⟩] }
          | none =>
              { s with usStatus := none,
                       notices := s.notices ++
                         [⟨.error, "美股同步失敗: " ++ typeErrorTotal⟩] }
        else
          { s with notices := s.notices ++
              [⟨.error, "美股同步失敗: " ++ jsInterp m⟩] }
  { s1 with usSyncing := false }

/-- The whole `syncUS` handler as a function of the response. -/
def syncUS (s : ComponentState) (res : ApiResponse SyncStatus) :
    ComponentState :=
  syncUSResolve (syncUSStart s) res

/-- Phase 1 of `syncAll`. -/
def syncAllStart (s : ComponentState) : ComponentState :=
  { s with allSyncing := true,
           notices := s.notices ++ [⟨.info, "開始同步港股和美股數據..."⟩] }

/-- Phase 2 of `syncAll`: a success envelope assigns `hkStatus :=
res.data.hk` and `usStatus := res.data.us` in the same synchronous
handler, then emits the success toast; when `res.data` itself is
undefined, reading `res.data.hk` throws before either assignment, so
neither status changes.  Non-success and thrown paths emit error
toasts.  `finally` resets `allSyncing` on every path. -/
def syncAllResolve (s : ComponentState) (res : ApiResponse AllData) :
    ComponentState :=
  let s1 : ComponentState :=
    match res with
    | .thrown m =>
        { s with notices := s.notices ++ [⟨.error, "同步失敗: " ++ m⟩] }
    | .envelope ok d m =>
        if ok then
          match d with
          | some pair =>
              { s with hkStatus := pair.hk, usStatus := pair.us,
                       notices := s.notices ++
                         [⟨.success, "港股和美股同步完成"⟩] }
          | none =>
              { s with notices := s.notices ++
                  [⟨.error, "同步失敗: " ++ typeErrorHK⟩] }
        else
          { s with notices := s.notices ++
              [⟨.error, "同步失敗: " ++ jsInterp m⟩] }
  { s1 with allSyncing := false }

/-- The whole `syncAll` handler as a function of the response. -/
def syncAll (s : ComponentState) (res : ApiResponse AllData) :
    ComponentState :=
  syncAllResolve (syncAllStart s) res

/-- The UI states observable during one `syncAll` call: the state after
the synchronous prefix (at the `await`), and the state after the
response handler and `finally` ran.  Vue renders only at these
boundaries. -/
def syncAllObservableStates (s : ComponentState) (res : ApiResponse AllData) :
    List ComponentState :=
  [syncAllStart s, syncAllResolve (syncAllStart s) res]

/-! Template render logic. -/

/-- The optional chain `hkStatus?.status` as written in the template. -/
def statusOf : Option SyncStatus → Option String
  | none => none
  | some st => st.status

/-- The source function `getStatusType`: a switch on the optional status
string, written as the equivalent equality chain. -/
def getStatusType (status : Option String) : String :=
  if status = some "completed" then "success"
  else if status = some "running" then "warning"
  else if status = some "failed" then "danger"
  else if status = some "never_run" then "info"
  else "info"

/-- The source function `getStatusText`. -/
def getStatusText (status : Option String) : String :=
  if status = some "completed" then "已完成"
  else if status = some "running" then "同步中"
  else if status = some "failed" then "失敗"
  else if status = some "never_run" then "未執行"
  else "未知"

/-- JS truthiness of a possibly-undefined string (the `v-if`
condition on `finished_at`): undefined and the empty string are
falsy. -/
def jsTruthyStr : Option String → Bool
  | none => false
  | some s => s ≠ ""

/-- The JS expression `x || 0` on a possibly-undefined count: undefined
and 0 are falsy and yield the fallback 0. -/
def jsOrZero : Option Nat → Nat
  | none => 0
  | some n => if n = 0 then 0 else n

/-- The `v-if` guard of the `market-stats` block:
`hkStatus && hkStatus.status !== never_run` (a null status object is
falsy; JS strict inequality against the string, which holds for an
undefined status field). -/
def statsShown : Option SyncStatus → Bool
  | none => false
  | some st => st.status ≠ some "never_run"

/-- The `v-if` guard of the completion-time line, nested inside the
stats block: the block guard conjoined with truthiness of
`finished_at`. -/
def timeShown (o : Option SyncStatus) : Bool :=
  statsShown o &&
    (match o with
     | none => false
     | some st => jsTruthyStr st.finished_at)

/-- The source function `formatTime`, parameterized by the oracle
`toLocale` standing for `t => new Date(t).toLocaleString with locale zh-TW`,
which is environment dependent. -/
def formatTime (toLocale : String → String) (time : Option String) :
    String :=
  match time with
  | none => ""
  | some t => if t = "" then "" else toLocale t

/-- The rendered `stat-row`: the three counter texts with the CSS
classes the template puts on each span. -/
structure StatRow where
  totalText : String
  totalClass : String
  insertedText : String
  insertedClass : String
  updatedText : String
  updatedClass : String
deriving Repr, DecidableEq

/-- Render the counters of one status, as the template writes them
(`x || 0` fallbacks; static classes on the value spans). -/
def renderStatRow (st : SyncStatus) : StatRow :=
  { totalText := toString (jsOrZero st.total)
  , totalClass := "stat-value"
  , insertedText := toString (jsOrZero st.inserted)
  , insertedClass := "stat-value success"
  , updatedText := toString (jsOrZero st.updated)
  , updatedClass := "stat-value primary" }

/-- Loading binding of the HK sync button (`:loading="hkSyncing"`),
the button whose click handler is `syncHK`. -/
def hkButtonLoading (s : ComponentState) : Bool := s.hkSyncing

/-- Loading binding of the US sync button (`:loading="usSyncing"`). -/
def usButtonLoading (s : ComponentState) : Bool := s.usSyncing

/-- Loading binding of the sync-all button (`:loading="allSyncing"`). -/
def allButtonLoading (s : ComponentState) : Bool := s.allSyncing

/-! HTTP requests issued by the handlers. -/

/-- Body of a trigger request. -/
structure RequestBody where
  force : Bool
deriving Repr, DecidableEq

/-- An HTTP request as the component issues it. -/
structure HttpRequest where
  httpMethod : String
  path : String
  body : RequestBody
deriving Repr, DecidableEq

/-- The request `syncHK` awaits. -/
def syncHKRequest : HttpRequest :=
  { httpMethod := "POST", path := "/api/sync/multi-source/hk/sync",
    body := { force := false } }

/-- The request `syncUS` awaits. -/
def syncUSRequest : HttpRequest :=
  { httpMethod := "POST", path := "/api/sync/multi-source/us/sync",
    body := { force := false } }

/-- The request `syncAll` awaits. -/
def syncAllRequest : HttpRequest :=
  { httpMethod := "POST", path := "/api/sync/multi-source/foreign/sync",
    body := { force := false } }

end ForeignSync

namespace StartupScript

/-- One observable step of the startup script (src/unnamed/part_000);
pure `echo` lines and the initial `cd` are presentation and directory
setup and carry no contract. -/
inductive ScriptAction where
  | checkDocker
  | composeUp (services : List String)
  | sleepFor (seconds : Nat)
  | activateVenv
  | runWatchdog (cmd : String)
deriving Repr, DecidableEq

/-- The startup script as a function of whether `docker info`
succeeds: the action trace it performs and the exit code the script
itself produces (`none` when the script does not exit on its own but
hands off to the watchdog process). -/
def startupScript (dockerReachable : Bool) :
    List ScriptAction × Option Nat :=
  if dockerReachable then
    ([ScriptAction.checkDocker,
      ScriptAction.composeUp ["mongodb", "redis"],
      ScriptAction.sleepFor 3,
      ScriptAction.activateVenv,
      ScriptAction.runWatchdog "python scripts/watchdog.py"], none)
  else
    ([ScriptAction.checkDocker], some 1)

end StartupScript

namespace ForeignSync

/-- A state shows an error toast whose text contains `m` as a
substring. -/
def hasErrorNoticeContaining (s : ComponentState) (m : String) : Prop :=
  ∃ a b, Notice.mk NoticeKind.error (a ++ m ++ b) ∈ s.notices

/-- Concrete payload of the C7 status-fetch scenario. -/
def completedHKPayload : SyncStatus :=
  { status := some "completed", total := some 1200, inserted := some 5,
    updated := some 3, finished_at := some "2024-01-01T00:00:00Z" }

/-- Concrete partially populated payload used to exercise the render
fallbacks. -/
def partialPayload : SyncStatus :=
  { status := some "completed", inserted := some 0 }

/-- C1: a logical-failure envelope (success false) on any trigger
(`syncHK`, `syncUS`, `syncAll`) leaves the displayed status of every
affected source exactly as before the call and shows an error toast
containing the backend message string. -/
theorem trigger_logical_failure_keeps_status_and_reports
    (s : ComponentState) (d : Option SyncStatus) (da : Option AllData)
    (m : String) :
    ((syncHK s (.envelope false d (some m))).hkStatus = s.hkStatus
      ∧ hasErrorNoticeContaining (syncHK s (.envelope false d (some m))) m)
    ∧ ((syncUS s (.envelope false d (some m))).usStatus = s.usStatus
      ∧ hasErrorNoticeContaining (syncUS s (.envelope false d (some m))) m)
    ∧ ((syncAll s (.envelope false da (some m))).hkStatus = s.hkStatus
      ∧ (syncAll s (.envelope false da (some m))).usStatus = s.usStatus
      ∧ hasErrorNoticeContaining (syncAll s (.envelope false da (some m))) m) := by
  refine ⟨⟨rfl, "港股同步失敗: ", "", ?_⟩, ⟨rfl, "美股同步失敗: ", "", ?_⟩,
         rfl, rfl, "同步失敗: ", "", ?_⟩ <;>
    simp [syncHK, syncUS, syncAll, syncHKStart, syncUSStart, syncAllStart,
          syncHKResolve, syncUSResolve, syncAllResolve, jsInterp]

/-- C5: every trigger sets its per-source in-progress flag (the one the
template binds as the loading state of the issuing button) before the
call suspends, and the finally block resets it on every outcome:
success envelope, logical-failure envelope, or thrown transport
error. -/
theorem trigger_loading_flags (s : ComponentState)
    (r : ApiResponse SyncStatus) (ra : ApiResponse AllData) :
    hkButtonLoading (syncHKStart s) = true
    ∧ hkButtonLoading (syncHKResolve (syncHKStart s) r) = false
    ∧ usButtonLoading (syncUSStart s) = true
    ∧ usButtonLoading (syncUSResolve (syncUSStart s) r) = false
    ∧ allButtonLoading (syncAllStart s) = true
    ∧ allButtonLoading (syncAllResolve (syncAllStart s) ra) = false := by
  exact ⟨rfl, rfl, rfl, rfl, rfl, rfl⟩

/-- C4: a success envelope of the trigger-all call carrying an `hk` and
a `us` status replaces both views in the single synchronous resolve
step: the only observable states are the pre-await state, in which
neither view has changed, and the final state, in which both have. -/
theorem syncAll_success_updates_both_atomically
    (s : ComponentState) (h u : SyncStatus) (m : Option String) :
    ((syncAllStart s).hkStatus = s.hkStatus
      ∧ (syncAllStart s).usStatus = s.usStatus)
    ∧ ((syncAll s (.envelope true (some ⟨some h, some u⟩) m)).hkStatus = some h
      ∧ (syncAll s (.envelope true (some ⟨some h, some u⟩) m)).usStatus = some u)
    ∧ syncAllObservableStates s (.envelope true (some ⟨some h, some u⟩) m)
        = [syncAllStart s, syncAll s (.envelope true (some ⟨some h, some u⟩) m)] := by
  exact ⟨⟨rfl, rfl⟩, ⟨rfl, rfl⟩, rfl⟩

/-- C6: each trigger issues a POST to its source endpoint with body
force := false (the default force value, the only one the component
ever sends), and a success envelope replaces the displayed status with
the returned payload — both statuses for the all-trigger. -/
theorem trigger_requests_and_success_updates
    (s : ComponentState) (d h u : SyncStatus) (m : Option String) :
    syncHKRequest = { httpMethod := "POST",
                      path := "/api/sync/multi-source/hk/sync",
                      body := { force := false } }
    ∧ syncUSRequest = { httpMethod := "POST",
                        path := "/api/sync/multi-source/us/sync",
                        body := { force := false } }
    ∧ syncAllRequest = { httpMethod := "POST",
                         path := "/api/sync/multi-source/foreign/sync",
                         body := { force := false } }
    ∧ (syncHK s (.envelope true (some d) m)).hkStatus = some d
    ∧ (syncUS s (.envelope true (some d) m)).usStatus = some d
    ∧ (syncAll s (.envelope true (some ⟨some h, some u⟩) m)).hkStatus = some h
    ∧ (syncAll s (.envelope true (some ⟨some h, some u⟩) m)).usStatus = some u := by
  exact ⟨rfl, rfl, rfl, rfl, rfl, rfl, rfl⟩

/-- C2 counterexample: a success-false envelope on a status fetch is
not logged at all — the state, its log included, is bit-for-bit
unchanged — refuting the clause that such a failure is logged. -/
theorem fetchHK_logical_failure_unlogged :
    fetchHKStatus initState (.envelope false none (some "boom")) = initState
    ∧ (fetchHKStatus initState
        (.envelope false none (some "boom"))).log = [] := by
  exact ⟨rfl, rfl⟩

/-- C2 amended: on a thrown transport error a status fetch keeps both
status views, produces no toast, and appends one console-log line; on
a success-false envelope it leaves the state entirely unchanged —
status retained and no notification, but also no log entry. -/
theorem fetch_failures_silent (s : ComponentState) (m : String)
    (d : Option SyncStatus) (ms : Option String) :
    ((fetchHKStatus s (.thrown m)).hkStatus = s.hkStatus
      ∧ (fetchHKStatus s (.thrown m)).usStatus = s.usStatus
      ∧ (fetchHKStatus s (.thrown m)).notices = s.notices
      ∧ (fetchHKStatus s (.thrown m)).log = s.log ++ ["獲取港股狀態失敗: " ++ m])
    ∧ fetchHKStatus s (.envelope false d ms) = s
    ∧ ((fetchUSStatus s (.thrown m)).usStatus = s.usStatus
      ∧ (fetchUSStatus s (.thrown m)).hkStatus = s.hkStatus
      ∧ (fetchUSStatus s (.thrown m)).notices = s.notices
      ∧ (fetchUSStatus s (.thrown m)).log = s.log ++ ["獲取美股狀態失敗: " ++ m])
    ∧ fetchUSStatus s (.envelope false d ms) = s := by
  exact ⟨⟨rfl, rfl, rfl, rfl⟩, rfl, ⟨rfl, rfl, rfl, rfl⟩, rfl⟩

/-- C3: a held status that is null or whose status field is never_run
makes the v-if guard of the numeric-counter block false, and with it
the guard of the completion-timestamp line nested inside it. -/
theorem never_run_or_null_hides_stats (o : Option SyncStatus)
    (h : o = none ∨ ∃ st, o = some st ∧ st.status = some "never_run") :
    statsShown o = false ∧ timeShown o = false := by
  rcases h with rfl | ⟨st, rfl, hst⟩
  · exact ⟨rfl, rfl⟩
  · constructor
    · simp [statsShown, hst]
    · simp [timeShown, statsShown, hst]

/-- C3 witness: the guards evaluate to false on a concrete never_run
status. -/
theorem never_run_or_null_hides_stats_witness :
    statsShown (some { status := some "never_run" }) = false
    ∧ timeShown (some { status := some "never_run" }) = false :=
  never_run_or_null_hides_stats (some { status := some "never_run" })
    (Or.inr ⟨{ status := some "never_run" }, rfl, rfl⟩)

/-- C7: fetching the HK status with the completed scenario envelope
stores the payload, maps the status to tag text 已完成 and tag type
success, shows the stats block with total 1200, inserted 5 under the
green success class, updated 3 under the blue primary class, and shows
the completion line with the timestamp passed through the locale
formatter. -/
theorem hk_completed_scenario (s : ComponentState)
    (toLocale : String → String) :
    (fetchHKStatus s (.envelope true (some completedHKPayload) none)).hkStatus
        = some completedHKPayload
    ∧ getStatusText (statusOf (some completedHKPayload)) = "已完成"
    ∧ getStatusType (statusOf (some completedHKPayload)) = "success"
    ∧ statsShown (some completedHKPayload) = true
    ∧ renderStatRow completedHKPayload =
        { totalText := "1200", totalClass := "stat-value",
          insertedText := "5", insertedClass := "stat-value success",
          updatedText := "3", updatedClass := "stat-value primary" }
    ∧ timeShown (some completedHKPayload) = true
    ∧ formatTime toLocale completedHKPayload.finished_at
        = toLocale "2024-01-01T00:00:00Z" := by
  refine ⟨rfl, rfl, rfl, ?_, ?_, ?_, rfl⟩ <;> decide

/-- C9: the status-to-display maps are total — any status string
outside the four cased values, and an absent status, fall to the
defaults 未知 and info, and never_run also maps to type info. -/
theorem status_mappings_total (st : Option String)
    (h1 : st ≠ some "completed") (h2 : st ≠ some "running")
    (h3 : st ≠ some "failed") (h4 : st ≠ some "never_run") :
    getStatusText st = "未知" ∧ getStatusType st = "info"
    ∧ getStatusText none = "未知" ∧ getStatusType none = "info"
    ∧ getStatusText (some "unknown") = "未知"
    ∧ getStatusType (some "never_run") = "info" := by
  refine ⟨?_, ?_, by decide, by decide, by decide, by decide⟩ <;>
    simp [getStatusText, getStatusType, h1, h2, h3, h4]

/-- C9 witness: the default branches at a concrete unrecognized status
string. -/
theorem status_mappings_total_witness :
    getStatusText (some "bogus") = "未知"
    ∧ getStatusType (some "bogus") = "info"
    ∧ getStatusText none = "未知" ∧ getStatusType none = "info"
    ∧ getStatusText (some "unknown") = "未知"
    ∧ getStatusType (some "never_run") = "info" :=
  status_mappings_total (some "bogus")
    (by decide) (by decide) (by decide) (by decide)

/-- C10: when the stats block is shown, an absent or zero counter
renders as 0 through the JS or-zero fallback, and formatTime maps an
absent or empty timestamp to the empty string, whatever the locale
formatter does. -/
theorem stats_render_fallbacks (st : SyncStatus)
    (toLocale : String → String)
    (_hshown : statsShown (some st) = true) :
    (st.total = none ∨ st.total = some 0 →
        (renderStatRow st).totalText = "0")
    ∧ (st.inserted = none ∨ st.inserted = some 0 →
        (renderStatRow st).insertedText = "0")
    ∧ (st.updated = none ∨ st.updated = some 0 →
        (renderStatRow st).updatedText = "0")
    ∧ formatTime toLocale none = ""
    ∧ formatTime toLocale (some "") = "" := by
  refine ⟨?_, ?_, ?_, rfl, by simp [formatTime]⟩ <;>
    rintro (h | h) <;> simp [renderStatRow, jsOrZero, h] <;> rfl

/-- C10 witness: the fallbacks evaluated on a concrete partially
populated status with the stats block shown. -/
theorem stats_render_fallbacks_witness :
    (renderStatRow partialPayload).totalText = "0"
    ∧ (renderStatRow partialPayload).insertedText = "0"
    ∧ (renderStatRow partialPayload).updatedText = "0"
    ∧ formatTime id none = "" ∧ formatTime id (some "") = "" := by
  have h := stats_render_fallbacks partialPayload id (by decide)
  exact ⟨h.1 (Or.inl rfl), h.2.1 (Or.inr rfl), h.2.2.1 (Or.inl rfl),
         h.2.2.2.1, h.2.2.2.2⟩

end ForeignSync

namespace StartupScript

/-- C8: the script checks the container runtime first and exits with
code 1 when the check fails, performing nothing else; when the check
passes it brings up exactly the two auxiliary services mongodb and
redis through compose, sleeps the fixed three-second grace period,
and ends by handing off to the watchdog executable, defining no exit
code of its own on that path. -/
theorem startup_script_contract :
    startupScript false = ([ScriptAction.checkDocker], some 1)
    ∧ startupScript true =
        ([ScriptAction.checkDocker,
          ScriptAction.composeUp ["mongodb", "redis"],
          ScriptAction.sleepFor 3,
          ScriptAction.activateVenv,
          ScriptAction.runWatchdog "python scripts/watchdog.py"], none)
    ∧ (startupScript true).2 = none
    ∧ (startupScript true).1.getLast?
        = some (ScriptAction.runWatchdog "python scripts/watchdog.py") := by
  exact ⟨rfl, rfl, rfl, rfl⟩

end StartupScript
